import Mathlib

/-! # CHIPcade: the chase game, the embedded demo and the Metal uniform records

The C globals of `games/simple_chase/src/main.c` become the fields of `Chase.State`,
those of `embedded/src/main.c` the fields of `Embedded.State`;
every `unsigned char` is a `Nat` kept below 256 by an explicit `% 256` at each
increment and decrement.  The records of `ChipCade/Metal/Metal.h` are lists of named,
typed fields (`Metal`).  The arrays `mem` and `sprite` and the constants `IO_LEFT`,
`IO_RIGHT`, `IO_UP`, `IO_DOWN`, `SPR_CHIPCADE` are declared by `include/chipcade.h`:
the two arrays are modelled as separate total maps, and the constants are the fields
of `Config`, so that every theorem holds for any values the header gives them.
-/

namespace ChipCade

/-- The constants of `include/chipcade.h` used by the scripts. -/
structure Config where
  IO_LEFT : Nat
  IO_RIGHT : Nat
  IO_UP : Nat
  IO_DOWN : Nat
  SPR_CHIPCADE : Nat

/-- One element of the sprite table: the eight byte fields the scripts write. -/
structure Sprite where
  x : Nat
  y : Nat
  tile : Nat
  flags : Nat
  c0 : Nat
  c1 : Nat
  c2 : Nat
  reserved : Nat
deriving DecidableEq, Repr

/-- Unsigned 8-bit `v++`. -/
def inc8 (v : Nat) : Nat := (v + 1) % 256

/-- Unsigned 8-bit `v--`. -/
def dec8 (v : Nat) : Nat := (v + 255) % 256

/-- The assignment `table[i] = d` of a whole descriptor. -/
def writeSprite (table : Nat → Sprite) (i : Nat) (d : Sprite) : Nat → Sprite :=
  fun j => if j = i then d else table j

namespace Chase

/-- The globals of the chase game together with the two arrays of the console. -/
structure State where
  player_x : Nat
  player_y : Nat
  target_x : Nat
  target_y : Nat
  target_dx : Nat
  target_dy : Nat
  score : Nat
  flash : Nat
  reset_timer : Nat
  collided : Nat
  sprite : Nat → Sprite
  mem : Nat → Nat

/-- Every `unsigned char` global holds a value below 256. -/
def State.WF (s : State) : Prop :=
  s.player_x < 256 ∧ s.player_y < 256 ∧ s.target_x < 256 ∧ s.target_y < 256 ∧
  s.target_dx < 256 ∧ s.target_dy < 256 ∧ s.score < 256 ∧ s.flash < 256 ∧
  s.reset_timer < 256 ∧ s.collided < 256

instance (s : State) : Decidable s.WF := by
  unfold State.WF; infer_instance

/-- Function `CheckCollision` of collision.c: the sums `player_x + 7` are computed after integer
promotion, so they are not reduced modulo 256. -/
def CheckCollision (s : State) : State :=
  if s.player_x + 7 ≥ s.target_x then
    if s.target_x + 7 ≥ s.player_x then
      if s.player_y + 7 ≥ s.target_y then
        if s.target_y + 7 ≥ s.player_y then
          { s with collided := 1 }
        else { s with collided := 0 }
      else { s with collided := 0 }
    else { s with collided := 0 }
  else { s with collided := 0 }

/-- Function `SetSprites` of main.c: all eight fields of `sprite[0]`, then of `sprite[1]`. -/
def SetSprites (cfg : Config) (s : State) : State :=
  let player_col := s.score
  let player_col := if player_col ≥ 16 then 15 else player_col
  let t := writeSprite s.sprite 0
    { x := s.player_x, y := s.player_y, tile := cfg.SPR_CHIPCADE, flags := 0x10,
      c0 := player_col, c1 := 7, c2 := 15, reserved := 0 }
  let t := writeSprite t 1
    (if s.flash ≥ 6 then
      { x := s.target_x, y := s.target_y, tile := cfg.SPR_CHIPCADE, flags := 0x10,
        c0 := 2, c1 := 10, c2 := 15, reserved := 0 }
    else
      { x := s.target_x, y := s.target_y, tile := cfg.SPR_CHIPCADE, flags := 0x10,
        c0 := 12, c1 := 5, c2 := 15, reserved := 0 })
  { s with sprite := t }

/-- Function `Init` of main.c. -/
def Init (cfg : Config) (s : State) : State :=
  SetSprites cfg
    { s with
      player_x := 0x20, player_y := 0x20, target_x := 0xC0, target_y := 0x90,
      target_dx := 0, target_dy := 0, score := 0, flash := 0, reset_timer := 0,
      collided := 0 }

/-- The branch `reset_timer > 0` of `Update` (main.c lines 66-76). -/
def resetPending (cfg : Config) (s : State) : State :=
  let s := { s with reset_timer := dec8 s.reset_timer }
  let s :=
    if s.reset_timer = 0 then
      { s with
        player_x := 0x20, player_y := 0x20, target_x := 0xC0, target_y := 0x90,
        target_dx := 0, target_dy := 0 }
    else s
  SetSprites cfg s

/-- The test of `mem[IO_LEFT]` in `Update` (main.c lines 79-83). -/
def pressLeft (cfg : Config) (s : State) : State :=
  if s.mem cfg.IO_LEFT ≠ 0 then
    if s.player_x > 0x10 then { s with player_x := dec8 s.player_x } else s
  else s

/-- The test of `mem[IO_RIGHT]` in `Update` (main.c lines 84-88). -/
def pressRight (cfg : Config) (s : State) : State :=
  if s.mem cfg.IO_RIGHT ≠ 0 then
    if s.player_x < 0xE8 then { s with player_x := inc8 s.player_x } else s
  else s

/-- The test of `mem[IO_UP]` in `Update` (main.c lines 89-93). -/
def pressUp (cfg : Config) (s : State) : State :=
  if s.mem cfg.IO_UP ≠ 0 then
    if s.player_y > 0x18 then { s with player_y := dec8 s.player_y } else s
  else s

/-- The test of `mem[IO_DOWN]` in `Update` (main.c lines 94-98). -/
def pressDown (cfg : Config) (s : State) : State :=
  if s.mem cfg.IO_DOWN ≠ 0 then
    if s.player_y < 0xB0 then { s with player_y := inc8 s.player_y } else s
  else s

/-- The four input tests of `Update` in their order (main.c lines 79-98). -/
def movePlayer (cfg : Config) (s : State) : State :=
  pressDown cfg (pressUp cfg (pressRight cfg (pressLeft cfg s)))

/-- The horizontal and vertical bounce of the target (main.c lines 100-124). -/
def moveTarget (s : State) : State :=
  let s :=
    if s.target_dx = 0 then
      let s := { s with target_x := inc8 s.target_x }
      if s.target_x ≥ 0xE8 then { s with target_dx := 1 } else s
    else
      let s := { s with target_x := dec8 s.target_x }
      if s.target_x ≤ 0x10 then { s with target_dx := 0 } else s
  let s :=
    if s.target_dy = 0 then
      let s := { s with target_y := inc8 s.target_y }
      if s.target_y ≥ 0xB0 then { s with target_dy := 1 } else s
    else
      let s := { s with target_y := dec8 s.target_y }
      if s.target_y ≤ 0x18 then { s with target_dy := 0 } else s
  s

/-- The state on which `Update` calls `CheckCollision` (main.c lines 79-124). -/
def afterMove (cfg : Config) (s : State) : State :=
  moveTarget (movePlayer cfg s)

/-- The tail of `Update` after `CheckCollision` returned (main.c lines 127-137). -/
def afterCheck (cfg : Config) (s : State) : State :=
  let s :=
    if s.collided ≠ 0 then
      { s with score := inc8 s.score, flash := 12, reset_timer := 18 }
    else s
  let s := if s.flash > 0 then { s with flash := dec8 s.flash } else s
  SetSprites cfg s

/-- Function `Update` of main.c. -/
def Update (cfg : Config) (s : State) : State :=
  if s.reset_timer > 0 then
    resetPending cfg s
  else
    afterCheck cfg (CheckCollision (afterMove cfg s))

/-- One frame: the host stores the input snapshot `m` in `mem`, then `Update` runs. -/
def frame (cfg : Config) (m : Nat → Nat) (s : State) : State :=
  Update cfg { s with mem := m }

/-- The state after `n` frames from `s`, frame `k` (counted from 0) running on the
memory snapshot `inp k`. -/
def runFrames (cfg : Config) (inp : Nat → Nat → Nat) : Nat → State → State
  | 0, s => s
  | n + 1, s => frame cfg (inp n) (runFrames cfg inp n s)

/-- A call of `Update` on `s` reaches `CheckCollision` and finds `collided` set. -/
def detects (cfg : Config) (s : State) : Prop :=
  s.reset_timer = 0 ∧ (CheckCollision (afterMove cfg s)).collided ≠ 0

instance (cfg : Config) (s : State) : Decidable (detects cfg s) := by
  unfold detects; infer_instance

/-- No direction button is held in the memory snapshot `m`. -/
def noInput (cfg : Config) (m : Nat → Nat) : Prop :=
  m cfg.IO_LEFT = 0 ∧ m cfg.IO_RIGHT = 0 ∧ m cfg.IO_UP = 0 ∧ m cfg.IO_DOWN = 0

/-- A state with the given positions, all other globals and both arrays zero. -/
def posState (px py tx ty : Nat) : State :=
  { player_x := px, player_y := py, target_x := tx, target_y := ty,
    target_dx := 0, target_dy := 0, score := 0, flash := 0, reset_timer := 0,
    collided := 0, sprite := fun _ => ⟨0, 0, 0, 0, 0, 0, 0, 0⟩, mem := fun _ => 0 }

/-- The state with player and target positions exchanged. -/
def swapRoles (s : State) : State :=
  { s with
    player_x := s.target_x, player_y := s.target_y,
    target_x := s.player_x, target_y := s.player_y }

/-- A call of `Update` on `s` takes the `reset_timer > 0` branch and leaves it without
running the reset block (main.c lines 65 and 67). -/
def isPendingFrame (s : State) : Prop :=
  s.reset_timer > 0 ∧ dec8 s.reset_timer ≠ 0

/-- A call of `Update` on `s` takes the `reset_timer > 0` branch and runs the reset block
of lines 68-73. -/
def isResetFrame (s : State) : Prop :=
  s.reset_timer > 0 ∧ dec8 s.reset_timer = 0

/-- A call of `Update` on `s` skips the `reset_timer > 0` branch and runs lines 79-137. -/
def isNormalFrame (s : State) : Prop :=
  ¬ s.reset_timer > 0

instance (s : State) : Decidable (isPendingFrame s) := by
  unfold isPendingFrame; infer_instance

instance (s : State) : Decidable (isResetFrame s) := by
  unfold isResetFrame; infer_instance

instance (s : State) : Decidable (isNormalFrame s) := by
  unfold isNormalFrame; infer_instance

/-- The positions and directions `Init` assigns. -/
def atInitPositions (s : State) : Prop :=
  s.player_x = 0x20 ∧ s.player_y = 0x20 ∧ s.target_x = 0xC0 ∧ s.target_y = 0x90 ∧
  s.target_dx = 0 ∧ s.target_dy = 0

/-- The states `s` and `t` agree on positions and directions. -/
def samePositions (s t : State) : Prop :=
  s.player_x = t.player_x ∧ s.player_y = t.player_y ∧ s.target_x = t.target_x ∧
  s.target_y = t.target_y ∧ s.target_dx = t.target_dx ∧ s.target_dy = t.target_dy

/-- The first two descriptors show the positions held in the globals, with the tile,
flags and reserved byte `SetSprites` writes. -/
def spritesReflect (cfg : Config) (s : State) : Prop :=
  (s.sprite 0).x = s.player_x ∧ (s.sprite 0).y = s.player_y ∧
  (s.sprite 1).x = s.target_x ∧ (s.sprite 1).y = s.target_y ∧
  (s.sprite 0).tile = cfg.SPR_CHIPCADE ∧ (s.sprite 1).tile = cfg.SPR_CHIPCADE ∧
  (s.sprite 0).flags = 0x10 ∧ (s.sprite 1).flags = 0x10 ∧
  (s.sprite 0).reserved = 0 ∧ (s.sprite 1).reserved = 0

/-- The entry state of frame `k` of a run: the state after `k` frames, with the
snapshot `inp k` stored in `mem`. -/
def entry (cfg : Config) (inp : Nat → Nat → Nat) (k : Nat) (s : State) : State :=
  { runFrames cfg inp k s with mem := inp k }

/-- A sample assignment of the header constants. -/
def sampleConfig : Config :=
  { IO_LEFT := 0, IO_RIGHT := 1, IO_UP := 2, IO_DOWN := 3, SPR_CHIPCADE := 0 }

/-- The input stream in which every byte of every snapshot is zero. -/
def idleInput : Nat → Nat → Nat := fun _ _ => 0

/-- The horizontal sawtooth of an undisturbed target: value `v` and direction `d` after
`t` frames from `Init` (period 432, rising from 0x10 to 0xE8). -/
def xPhase (t v d : Nat) : Prop :=
  (176 + t) % 432 < 216 ∧ v = 16 + (176 + t) % 432 ∧ d = 0 ∨
  216 ≤ (176 + t) % 432 ∧ v = 448 - (176 + t) % 432 ∧ d = 1

/-- The vertical sawtooth of an undisturbed target (period 304, rising from 0x18 to
0xB0). -/
def yPhase (t v d : Nat) : Prop :=
  (120 + t) % 304 < 152 ∧ v = 24 + (120 + t) % 304 ∧ d = 0 ∨
  152 ≤ (120 + t) % 304 ∧ v = 328 - (120 + t) % 304 ∧ d = 1

/-- What holds `t` frames after `Init` while no button is pressed and no collision has
happened. -/
def idleInv (t : Nat) (s : State) : Prop :=
  s.player_x = 32 ∧ s.player_y = 32 ∧ s.score = 0 ∧ s.flash = 0 ∧ s.reset_timer = 0 ∧
  xPhase t s.target_x s.target_dx ∧ yPhase t s.target_y s.target_dy

/-- A well-formed state whose countdown is at 1, away from the `Init` positions. -/
def resetDueState : State :=
  { posState 0x50 0x50 0x60 0x60 with reset_timer := 1 }

/-- A well-formed state whose countdown is at 18, as a collision frame leaves it. -/
def justCollidedState : State :=
  { posState 0x20 0x20 0x27 0x27 with reset_timer := 18, score := 1, flash := 11,
                                      collided := 1 }

/-- A state in which player and target overlap and `score` is at its maximum. -/
def overlapState : State :=
  { posState 0x20 0x20 0x20 0x20 with score := 0xFF }

/-- The timer-gating sentence read literally for a countdown just set to `N`: frames
`0 .. N-1` are reset-pending without a reset, frame `N` performs the reset, frame `N+1`
runs the normal logic. -/
def timerGatingAsStated (cfg : Config) (inp : Nat → Nat → Nat) (N : Nat) (s : State) : Prop :=
  (∀ k, k < N → isPendingFrame (entry cfg inp k s)) ∧
  isResetFrame (entry cfg inp N s) ∧
  isNormalFrame (entry cfg inp (N + 1) s)

/-- The variant of `CheckCollision` in which every `+ 7` sum is truncated to 8 bits, as
it would be without integer promotion. -/
def CheckCollision8 (s : State) : State :=
  if (s.player_x + 7) % 256 ≥ s.target_x then
    if (s.target_x + 7) % 256 ≥ s.player_x then
      if (s.player_y + 7) % 256 ≥ s.target_y then
        if (s.target_y + 7) % 256 ≥ s.player_y then
          { s with collided := 1 }
        else { s with collided := 0 }
      else { s with collided := 0 }
    else { s with collided := 0 }
  else { s with collided := 0 }

/-- The position bounds: both sprites stay inside the playfield. -/
def inBounds (s : State) : Prop :=
  0x10 ≤ s.player_x ∧ s.player_x ≤ 0xE8 ∧ 0x18 ≤ s.player_y ∧ s.player_y ≤ 0xB0 ∧
  0x10 ≤ s.target_x ∧ s.target_x ≤ 0xE8 ∧ 0x18 ≤ s.target_y ∧ s.target_y ≤ 0xB0

/-- The target is never at the edge it is moving towards: the fact that makes the
position bounds inductive. -/
def headingInward (s : State) : Prop :=
  (s.target_dx = 0 → s.target_x < 0xE8) ∧ (s.target_dx ≠ 0 → 0x10 < s.target_x) ∧
  (s.target_dy = 0 → s.target_y < 0xB0) ∧ (s.target_dy ≠ 0 → 0x18 < s.target_y)

/-- The four coordinates are at most 0xF8, so that adding 7 stays within a byte. -/
def coordsBelowF8 (s : State) : Prop :=
  s.player_x ≤ 0xF8 ∧ s.player_y ≤ 0xF8 ∧ s.target_x ≤ 0xF8 ∧ s.target_y ≤ 0xF8

/-- The palette `SetSprites` selects from the globals `score` and `flash`. -/
def paletteReflects (s : State) : Prop :=
  (s.sprite 0).c0 = min s.score 15 ∧ (s.sprite 0).c1 = 7 ∧ (s.sprite 0).c2 = 15 ∧
  (s.flash ≥ 6 → (s.sprite 1).c0 = 2 ∧ (s.sprite 1).c1 = 10 ∧ (s.sprite 1).c2 = 15) ∧
  (¬ s.flash ≥ 6 → (s.sprite 1).c0 = 12 ∧ (s.sprite 1).c1 = 5 ∧ (s.sprite 1).c2 = 15)

/-- Every palette slot index of the first two descriptors is at most 15. -/
def paletteBounded (s : State) : Prop :=
  (s.sprite 0).c0 ≤ 15 ∧ (s.sprite 0).c1 ≤ 15 ∧ (s.sprite 0).c2 ≤ 15 ∧
  (s.sprite 1).c0 ≤ 15 ∧ (s.sprite 1).c1 ≤ 15 ∧ (s.sprite 1).c2 ≤ 15

/-- The two memories agree, register by register, on which direction buttons are
released. -/
def sameButtons (cfg : Config) (m1 m2 : Nat → Nat) : Prop :=
  (m1 cfg.IO_LEFT = 0 ↔ m2 cfg.IO_LEFT = 0) ∧ (m1 cfg.IO_RIGHT = 0 ↔ m2 cfg.IO_RIGHT = 0) ∧
  (m1 cfg.IO_UP = 0 ↔ m2 cfg.IO_UP = 0) ∧ (m1 cfg.IO_DOWN = 0 ↔ m2 cfg.IO_DOWN = 0)

instance (cfg : Config) (m1 m2 : Nat → Nat) : Decidable (sameButtons cfg m1 m2) := by
  unfold sameButtons; infer_instance

/-- A memory snapshot with left and down held, read as 1. -/
def leftDownMem : Nat → Nat := fun a => if a = 0 then 1 else if a = 3 then 1 else 0

/-- A memory snapshot with left and down held, read as other nonzero bytes, and with
unrelated bytes set. -/
def leftDownMemAlt : Nat → Nat :=
  fun a => if a = 0 then 0xFF else if a = 3 then 0x80 else if a = 100 then 7 else 0

/-- A memory snapshot with all four direction buttons held. -/
def allHeldMem : Nat → Nat := fun _ => 1

end Chase

/-! ## The embedded demo (embedded/src/main.c) -/

namespace Embedded

/-- The globals of the embedded demo together with the two arrays of the console. -/
structure State where
  spr_pos_x : Nat
  spr_frame : Nat
  spr_dir : Nat
  sprite : Nat → Sprite
  mem : Nat → Nat

/-- Function `SetSprite` of embedded/src/main.c: all eight fields of `sprite[0]`. -/
def SetSprite (cfg : Config) (s : State) : State :=
  { s with
    sprite := writeSprite s.sprite 0
      { x := s.spr_pos_x, y := 0x50, tile := cfg.SPR_CHIPCADE, flags := 0x10,
        c0 := 12, c1 := 7, c2 := 15, reserved := 0 } }

/-- Function `Init` of embedded/src/main.c. -/
def Init (cfg : Config) (s : State) : State :=
  SetSprite cfg { s with spr_pos_x := 0x20, spr_frame := 0, spr_dir := 0 }

/-- Function `Update` of embedded/src/main.c. -/
def Update (cfg : Config) (s : State) : State :=
  let s :=
    if s.spr_dir = 0 then
      let s := { s with spr_pos_x := inc8 s.spr_pos_x }
      if s.spr_pos_x ≥ 0xDC then { s with spr_dir := 1 } else s
    else
      let s := { s with spr_pos_x := dec8 s.spr_pos_x }
      if s.spr_pos_x ≤ 0x10 then { s with spr_dir := 0 } else s
  let s := { s with spr_frame := inc8 s.spr_frame }
  SetSprite cfg s

/-- One frame: the host stores the input snapshot `m` in `mem`, then `Update` runs. -/
def frame (cfg : Config) (m : Nat → Nat) (s : State) : State :=
  Update cfg { s with mem := m }

/-- The state after `n` frames from `s`, frame `k` running on the snapshot `inp k`. -/
def runFrames (cfg : Config) (inp : Nat → Nat → Nat) : Nat → State → State
  | 0, s => s
  | n + 1, s => frame cfg (inp n) (runFrames cfg inp n s)

/-- The sprite stays between its two turning points and the direction flag is 0 or 1;
the last two parts make the bounds inductive. -/
def sweepInv (s : State) : Prop :=
  0x10 ≤ s.spr_pos_x ∧ s.spr_pos_x ≤ 0xDC ∧ (s.spr_dir = 0 ∨ s.spr_dir = 1) ∧
  (s.spr_dir = 0 → s.spr_pos_x < 0xDC) ∧ (s.spr_dir ≠ 0 → 0x10 < s.spr_pos_x)

/-- Descriptor 0 shows the sprite position, on row 0x50, enabled, reserved byte 0. -/
def spriteReflects (s : State) : Prop :=
  (s.sprite 0).x = s.spr_pos_x ∧ (s.sprite 0).y = 0x50 ∧ (s.sprite 0).flags = 0x10 ∧
  (s.sprite 0).reserved = 0

/-- A state with all globals and both arrays zero. -/
def zeroState : State :=
  { spr_pos_x := 0, spr_frame := 0, spr_dir := 0,
    sprite := fun _ => ⟨0, 0, 0, 0, 0, 0, 0, 0⟩, mem := fun _ => 0 }

end Embedded

/-! ## The uniform records of ChipCade/Metal/Metal.h -/

namespace Metal

/-- The kinds of field the uniform records are built from: `int`, `float`,
`vector_float2` and `vector_float4`. -/
inductive Kind where
  | int
  | float
  | float2
  | float4
deriving DecidableEq, Repr

/-- Size of a field in bytes. -/
def Kind.size : Kind → Nat
  | Kind.int => 4
  | Kind.float => 4
  | Kind.float2 => 8
  | Kind.float4 => 16

/-- Natural alignment of a field in bytes: 4 for `int` and `float`, 8 for a 2-float
vector, 16 for a 4-float vector. -/
def Kind.align : Kind → Nat
  | Kind.int => 4
  | Kind.float => 4
  | Kind.float2 => 8
  | Kind.float4 => 16

/-- One declared member of a record. -/
structure Field where
  name : String
  kind : Kind
deriving DecidableEq, Repr

/-- Record `RectUniform` of Metal.h (lines 20-23). -/
def RectUniform : List Field :=
  [⟨"hasTexture", Kind.int⟩]

/-- Record `VertexUniform` of Metal.h (lines 25-29). -/
def VertexUniform : List Field :=
  [⟨"position", Kind.float2⟩, ⟨"textureCoordinate", Kind.float2⟩]

/-- Record `TextureUniform` of Metal.h (lines 31-38). -/
def TextureUniform : List Field :=
  [⟨"screenSize", Kind.float2⟩, ⟨"pos", Kind.float2⟩, ⟨"size", Kind.float2⟩,
   ⟨"globalAlpha", Kind.float⟩]

/-- Record `DiscUniform` of Metal.h (lines 40-51). -/
def DiscUniform : List Field :=
  [⟨"fillColor", Kind.float4⟩, ⟨"borderColor", Kind.float4⟩, ⟨"radius", Kind.float⟩,
   ⟨"borderSize", Kind.float⟩, ⟨"rotation", Kind.float⟩, ⟨"onion", Kind.float⟩,
   ⟨"hasTexture", Kind.int⟩, ⟨"textureSize", Kind.float2⟩]

/-- Record `BoxUniform` of Metal.h (lines 53-68). -/
def BoxUniform : List Field :=
  [⟨"screenSize", Kind.float2⟩, ⟨"pos", Kind.float2⟩, ⟨"size", Kind.float2⟩,
   ⟨"round", Kind.float⟩, ⟨"borderSize", Kind.float⟩, ⟨"fillColor", Kind.float4⟩,
   ⟨"borderColor", Kind.float4⟩, ⟨"rotation", Kind.float⟩, ⟨"onion", Kind.float⟩,
   ⟨"hasTexture", Kind.int⟩, ⟨"textureSize", Kind.float2⟩]

/-- Record `LineUniform` of Metal.h (lines 70-78). -/
def LineUniform : List Field :=
  [⟨"size", Kind.float2⟩, ⟨"sp", Kind.float2⟩, ⟨"ep", Kind.float2⟩,
   ⟨"width", Kind.float⟩, ⟨"borderSize", Kind.float⟩, ⟨"fillColor", Kind.float4⟩,
   ⟨"borderColor", Kind.float4⟩]

/-- Record `GridUniform` of Metal.h (lines 80-88). -/
def GridUniform : List Field :=
  [⟨"size", Kind.float2⟩, ⟨"offset", Kind.float2⟩, ⟨"gridSize", Kind.float⟩,
   ⟨"fillColor", Kind.float4⟩, ⟨"borderColor", Kind.float4⟩]

/-- Record `TextUniform` of Metal.h (lines 90-98). -/
def TextUniform : List Field :=
  [⟨"atlasSize", Kind.float2⟩, ⟨"fontPos", Kind.float2⟩, ⟨"fontSize", Kind.float2⟩,
   ⟨"color", Kind.float4⟩, ⟨"rotated", Kind.int⟩]

/-- The eight uniform records of Metal.h in declaration order. -/
def uniformRecords : List (List Field) :=
  [RectUniform, VertexUniform, TextureUniform, DiscUniform, BoxUniform, LineUniform,
   GridUniform, TextUniform]

/-- Row RectUniform of the schema table of the specification (section 4.2):
hasTexture (bool as int). -/
def specRectUniform : List Field :=
  [⟨"hasTexture", Kind.int⟩]

/-- Row VertexUniform of the schema table: position (2f), textureCoordinate (2f). -/
def specVertexUniform : List Field :=
  [⟨"position", Kind.float2⟩, ⟨"textureCoordinate", Kind.float2⟩]

/-- Row TextureUniform of the schema table: screenSize, pos, size (2f each),
globalAlpha (f). -/
def specTextureUniform : List Field :=
  [⟨"screenSize", Kind.float2⟩, ⟨"pos", Kind.float2⟩, ⟨"size", Kind.float2⟩,
   ⟨"globalAlpha", Kind.float⟩]

/-- Row DiscUniform of the schema table: fillColor, borderColor (4f each), radius,
borderSize, rotation, onion (f each), hasTexture (int), textureSize (2f). -/
def specDiscUniform : List Field :=
  [⟨"fillColor", Kind.float4⟩, ⟨"borderColor", Kind.float4⟩, ⟨"radius", Kind.float⟩,
   ⟨"borderSize", Kind.float⟩, ⟨"rotation", Kind.float⟩, ⟨"onion", Kind.float⟩,
   ⟨"hasTexture", Kind.int⟩, ⟨"textureSize", Kind.float2⟩]

/-- Row BoxUniform of the schema table: screenSize, pos, size (2f each), round,
borderSize (f each), fillColor, borderColor (4f each), rotation, onion (f each),
hasTexture (int), textureSize (2f). -/
def specBoxUniform : List Field :=
  [⟨"screenSize", Kind.float2⟩, ⟨"pos", Kind.float2⟩, ⟨"size", Kind.float2⟩,
   ⟨"round", Kind.float⟩, ⟨"borderSize", Kind.float⟩, ⟨"fillColor", Kind.float4⟩,
   ⟨"borderColor", Kind.float4⟩, ⟨"rotation", Kind.float⟩, ⟨"onion", Kind.float⟩,
   ⟨"hasTexture", Kind.int⟩, ⟨"textureSize", Kind.float2⟩]

/-- Row LineUniform of the schema table: size (2f), sp, ep (2f each), width,
borderSize (f each), fillColor, borderColor (4f each). -/
def specLineUniform : List Field :=
  [⟨"size", Kind.float2⟩, ⟨"sp", Kind.float2⟩, ⟨"ep", Kind.float2⟩,
   ⟨"width", Kind.float⟩, ⟨"borderSize", Kind.float⟩, ⟨"fillColor", Kind.float4⟩,
   ⟨"borderColor", Kind.float4⟩]

/-- Row GridUniform of the schema table: size, offset (2f each), gridSize (f),
fillColor, borderColor (4f each). -/
def specGridUniform : List Field :=
  [⟨"size", Kind.float2⟩, ⟨"offset", Kind.float2⟩, ⟨"gridSize", Kind.float⟩,
   ⟨"fillColor", Kind.float4⟩, ⟨"borderColor", Kind.float4⟩]

/-- Row TextUniform of the schema table: atlasSize, fontPos, fontSize (2f each),
color (4f), rotated (int). -/
def specTextUniform : List Field :=
  [⟨"atlasSize", Kind.float2⟩, ⟨"fontPos", Kind.float2⟩, ⟨"fontSize", Kind.float2⟩,
   ⟨"color", Kind.float4⟩, ⟨"rotated", Kind.int⟩]

/-- The least multiple of `a` that is at least `off`. -/
def alignUp (off a : Nat) : Nat := (off + a - 1) / a * a

/-- Layout in declaration order with natural alignment, starting at byte `off`: every
field is placed at the first offset that is a multiple of its alignment. -/
def layoutFrom : Nat → List Field → List (Field × Nat)
  | _, [] => []
  | off, f :: fs =>
    (f, alignUp off f.kind.align) :: layoutFrom (alignUp off f.kind.align + f.kind.size) fs

/-- Layout of a record from offset 0. -/
def layout (r : List Field) : List (Field × Nat) := layoutFrom 0 r

/-- The byte offsets of the fields of a record, in declaration order. -/
def offsets (r : List Field) : List Nat := (layout r).map Prod.snd

/-- Every 2-float field lies on a multiple of 8 and every 4-float field on a multiple
of 16. -/
def vectorsAligned (r : List Field) : Prop :=
  ∀ p ∈ layout r,
    (p.1.kind = Kind.float2 → p.2 % 8 = 0) ∧ (p.1.kind = Kind.float4 → p.2 % 16 = 0)

/-- The byte ranges of two placed fields are disjoint. -/
def disjointFields (p q : Field × Nat) : Prop :=
  p.2 + p.1.kind.size ≤ q.2 ∨ q.2 + q.1.kind.size ≤ p.2

/-- No two fields of the record overlap. -/
def noOverlap (r : List Field) : Prop :=
  (layout r).Pairwise disjointFields

instance (r : List Field) : Decidable (vectorsAligned r) := by
  unfold vectorsAligned; infer_instance

instance (p q : Field × Nat) : Decidable (disjointFields p q) := by
  unfold disjointFields; infer_instance

instance (r : List Field) : Decidable (noOverlap r) := by
  unfold noOverlap; infer_instance

end Metal

/-! ## Theorems -/

namespace Chase

/-! ### Normal forms of the stages of `Update` -/

theorem CheckCollision_eq (s : State) :
    CheckCollision s =
      { s with collided :=
          if s.player_x + 7 ≥ s.target_x ∧ s.target_x + 7 ≥ s.player_x ∧
             s.player_y + 7 ≥ s.target_y ∧ s.target_y + 7 ≥ s.player_y then 1 else 0 } := by
  unfold CheckCollision
  split_ifs <;> simp_all

theorem CheckCollision_collided (s : State) :
    (CheckCollision s).collided =
      if s.player_x + 7 ≥ s.target_x ∧ s.target_x + 7 ≥ s.player_x ∧
         s.player_y + 7 ≥ s.target_y ∧ s.target_y + 7 ≥ s.player_y then 1 else 0 := by
  rw [CheckCollision_eq]

theorem moveTarget_eq (s : State) :
    moveTarget s =
      { s with
        target_x := if s.target_dx = 0 then inc8 s.target_x else dec8 s.target_x,
        target_dx :=
          if s.target_dx = 0 then (if inc8 s.target_x ≥ 0xE8 then 1 else s.target_dx)
          else (if dec8 s.target_x ≤ 0x10 then 0 else s.target_dx),
        target_y := if s.target_dy = 0 then inc8 s.target_y else dec8 s.target_y,
        target_dy :=
          if s.target_dy = 0 then (if inc8 s.target_y ≥ 0xB0 then 1 else s.target_dy)
          else (if dec8 s.target_y ≤ 0x18 then 0 else s.target_dy) } := by
  unfold moveTarget
  simp only []
  split_ifs <;> rfl

theorem afterCheck_eq (cfg : Config) (s : State) :
    afterCheck cfg s =
      SetSprites cfg
        { s with
          score := if s.collided ≠ 0 then inc8 s.score else s.score,
          flash :=
            if s.collided ≠ 0 then 11 else (if s.flash > 0 then dec8 s.flash else s.flash),
          reset_timer := if s.collided ≠ 0 then 18 else s.reset_timer } := by
  unfold afterCheck
  simp only []
  split_ifs <;> first | rfl | simp_all [dec8]

theorem movePlayer_noInput (cfg : Config) (s : State) (h : noInput cfg s.mem) :
    movePlayer cfg s = s := by
  obtain ⟨h1, h2, h3, h4⟩ := h
  simp [movePlayer, pressLeft, pressRight, pressUp, pressDown, h1, h2, h3, h4]

theorem Update_normal (cfg : Config) (s : State) (h : s.reset_timer = 0) :
    Update cfg s = afterCheck cfg (CheckCollision (afterMove cfg s)) := by
  unfold Update
  rw [if_neg (by omega)]

theorem Update_pending (cfg : Config) (s : State) (h : 0 < s.reset_timer) :
    Update cfg s = resetPending cfg s := by
  unfold Update
  rw [if_pos h]

theorem frame_idle (cfg : Config) (m : Nat → Nat) (s : State) (hm : noInput cfg m)
    (h : s.reset_timer = 0) :
    frame cfg m s = afterCheck cfg (CheckCollision (moveTarget { s with mem := m })) := by
  unfold frame
  rw [Update_normal cfg { s with mem := m } h, afterMove, movePlayer_noInput cfg _ hm]

/-! ### The undisturbed flight of the target after `Init` -/

theorem xPhase_step (t v d : Nat) (h : xPhase t v d) :
    xPhase (t + 1) (if d = 0 then inc8 v else dec8 v)
      (if d = 0 then (if inc8 v ≥ 0xE8 then 1 else d)
       else (if dec8 v ≤ 0x10 then 0 else d)) := by
  unfold xPhase inc8 dec8 at *
  rcases h with ⟨a, b, c⟩ | ⟨a, b, c⟩ <;> subst c <;>
    simp only [if_true, if_false, one_ne_zero] <;> split_ifs <;> omega

theorem yPhase_step (t v d : Nat) (h : yPhase t v d) :
    yPhase (t + 1) (if d = 0 then inc8 v else dec8 v)
      (if d = 0 then (if inc8 v ≥ 0xB0 then 1 else d)
       else (if dec8 v ≤ 0x18 then 0 else d)) := by
  unfold yPhase inc8 dec8 at *
  rcases h with ⟨a, b, c⟩ | ⟨a, b, c⟩ <;> subst c <;>
    simp only [if_true, if_false, one_ne_zero] <;> split_ifs <;> omega

theorem phase_nohit (t px py x dx y dy : Nat) (hpx : px = 32) (hpy : py = 32)
    (hx : xPhase t x dx) (hy : yPhase t y dy) (h1 : 1 ≤ t) (h2 : t ≤ 1096) :
    ¬ (px + 7 ≥ x ∧ x + 7 ≥ px ∧ py + 7 ≥ y ∧ y + 7 ≥ py) := by
  unfold xPhase at hx
  unfold yPhase at hy
  omega

theorem phase_hit (px py x dx y dy : Nat) (hpx : px = 32) (hpy : py = 32)
    (hx : xPhase 1097 x dx) (hy : yPhase 1097 y dy) :
    px + 7 ≥ x ∧ x + 7 ≥ px ∧ py + 7 ≥ y ∧ y + 7 ≥ py := by
  unfold xPhase at hx
  unfold yPhase at hy
  omega

theorem idleInv_Init (cfg : Config) (s0 : State) : idleInv 0 (Init cfg s0) := by
  simp [idleInv, xPhase, yPhase, Init, SetSprites]

theorem idleInv_step (cfg : Config) (m : Nat → Nat) (t : Nat) (s : State)
    (hm : noInput cfg m) (hs : idleInv t s) (ht : t < 1096) :
    ¬ detects cfg { s with mem := m } ∧ idleInv (t + 1) (frame cfg m s) := by
  obtain ⟨h1, h2, h3, h4, h5, hx, hy⟩ := hs
  have hx' := xPhase_step t _ _ hx
  have hy' := yPhase_step t _ _ hy
  have hno := phase_nohit (t + 1) _ _ _ _ _ _ h1 h2 hx' hy' (by omega) (by omega)
  rw [frame_idle cfg m s hm h5]
  unfold detects idleInv
  rw [afterMove, movePlayer_noInput cfg _ hm, afterCheck_eq, CheckCollision_eq, moveTarget_eq]
  simp only [SetSprites]
  rw [if_neg hno]
  simp only [ne_eq, not_true_eq_false, and_false, not_false_eq_true, if_false, true_and]
  exact ⟨h1, h2, h3, by simp [h4], h5, hx', hy'⟩

theorem idleInv_last (cfg : Config) (m : Nat → Nat) (s : State)
    (hm : noInput cfg m) (hs : idleInv 1096 s) :
    detects cfg { s with mem := m } ∧ (frame cfg m s).score = 1 ∧
      (frame cfg m s).reset_timer = 18 := by
  obtain ⟨h1, h2, h3, h4, h5, hx, hy⟩ := hs
  have hx' := xPhase_step 1096 _ _ hx
  have hy' := yPhase_step 1096 _ _ hy
  have hit := phase_hit _ _ _ _ _ _ h1 h2 hx' hy'
  rw [frame_idle cfg m s hm h5]
  unfold detects
  rw [afterMove, movePlayer_noInput cfg _ hm, afterCheck_eq, CheckCollision_eq, moveTarget_eq]
  simp only [SetSprites]
  rw [if_pos hit]
  simp [h3, h5, inc8]

theorem idleInv_run (cfg : Config) (inp : Nat → Nat → Nat) (s0 : State)
    (h : ∀ k, noInput cfg (inp k)) :
    ∀ k, k ≤ 1096 → idleInv k (runFrames cfg inp k (Init cfg s0)) := by
  intro k
  induction k with
  | zero => intro _; exact idleInv_Init cfg s0
  | succ k ih =>
    intro hk
    exact (idleInv_step cfg (inp k) k _ (h k) (ih (by omega)) (by omega)).2

/-! ### The reset-pending branch -/

theorem SetSprites_reflect (cfg : Config) (s : State) :
    spritesReflect cfg (SetSprites cfg s) := by
  unfold spritesReflect SetSprites writeSprite
  by_cases hf : s.flash ≥ 6 <;> simp [hf]

theorem frame_pending (cfg : Config) (m : Nat → Nat) (s : State)
    (h0 : 0 < s.reset_timer) (h256 : s.reset_timer < 256) :
    (frame cfg m s).reset_timer = s.reset_timer - 1 ∧
    (frame cfg m s).score = s.score ∧ (frame cfg m s).flash = s.flash ∧
    (frame cfg m s).collided = s.collided ∧
    (s.reset_timer ≠ 1 → samePositions (frame cfg m s) s) ∧
    (s.reset_timer = 1 → atInitPositions (frame cfg m s)) := by
  have hd : dec8 s.reset_timer = s.reset_timer - 1 := by unfold dec8; omega
  have hU : frame cfg m s = resetPending cfg { s with mem := m } :=
    Update_pending cfg { s with mem := m } h0
  rw [hU]
  unfold resetPending SetSprites samePositions atInitPositions
  simp only [hd]
  by_cases h1 : s.reset_timer = 1
  · simp [h1]
  · have h2 : s.reset_timer - 1 ≠ 0 := by omega
    simp [h1, h2]

theorem pending_run (cfg : Config) (inp : Nat → Nat → Nat) (s : State)
    (h256 : s.reset_timer < 256) :
    ∀ k, k < s.reset_timer →
      (runFrames cfg inp k s).reset_timer = s.reset_timer - k ∧
      samePositions (runFrames cfg inp k s) s := by
  intro k
  induction k with
  | zero => intro _; exact ⟨rfl, rfl, rfl, rfl, rfl, rfl, rfl⟩
  | succ k ih =>
    intro hk
    obtain ⟨hr, hp⟩ := ih (by omega)
    have hf := frame_pending cfg (inp k) (runFrames cfg inp k s) (by omega) (by omega)
    obtain ⟨f1, _, _, _, f5, _⟩ := hf
    have hs := f5 (by omega)
    refine ⟨?_, ?_⟩
    · show (frame cfg (inp k) (runFrames cfg inp k s)).reset_timer = _
      omega
    · show samePositions (frame cfg (inp k) (runFrames cfg inp k s)) s
      unfold samePositions at *
      omega

theorem pending_run_end (cfg : Config) (inp : Nat → Nat → Nat) (s : State)
    (h0 : 0 < s.reset_timer) (h256 : s.reset_timer < 256) :
    (runFrames cfg inp s.reset_timer s).reset_timer = 0 ∧
    atInitPositions (runFrames cfg inp s.reset_timer s) := by
  obtain ⟨n, hn⟩ : ∃ n, s.reset_timer = n + 1 := ⟨s.reset_timer - 1, by omega⟩
  obtain ⟨hr, _⟩ := pending_run cfg inp s h256 n (by omega)
  have hf := frame_pending cfg (inp n) (runFrames cfg inp n s) (by omega) (by omega)
  obtain ⟨f1, _, _, _, _, f6⟩ := hf
  rw [hn]
  refine ⟨?_, ?_⟩
  · show (frame cfg (inp n) (runFrames cfg inp n s)).reset_timer = 0
    omega
  · exact f6 (by omega)

/-! ### The normal branch -/

theorem pressLeft_keeps (cfg : Config) (s : State) :
    ∃ px, pressLeft cfg s = { s with player_x := px } := by
  unfold pressLeft
  split_ifs <;> exact ⟨_, rfl⟩

theorem pressRight_keeps (cfg : Config) (s : State) :
    ∃ px, pressRight cfg s = { s with player_x := px } := by
  unfold pressRight
  split_ifs <;> exact ⟨_, rfl⟩

theorem pressUp_keeps (cfg : Config) (s : State) :
    ∃ py, pressUp cfg s = { s with player_y := py } := by
  unfold pressUp
  split_ifs <;> exact ⟨_, rfl⟩

theorem pressDown_keeps (cfg : Config) (s : State) :
    ∃ py, pressDown cfg s = { s with player_y := py } := by
  unfold pressDown
  split_ifs <;> exact ⟨_, rfl⟩

theorem movePlayer_keeps (cfg : Config) (s : State) :
    ∃ px py, movePlayer cfg s = { s with player_x := px, player_y := py } := by
  unfold movePlayer
  obtain ⟨a, ha⟩ := pressLeft_keeps cfg s
  rw [ha]
  obtain ⟨b, hb⟩ := pressRight_keeps cfg { s with player_x := a }
  rw [hb]
  obtain ⟨c, hc⟩ := pressUp_keeps cfg { s with player_x := b }
  rw [hc]
  obtain ⟨d, hd⟩ := pressDown_keeps cfg { s with player_x := b, player_y := c }
  rw [hd]
  exact ⟨_, _, rfl⟩

theorem CheckCollision_keeps (s : State) :
    (CheckCollision s).score = s.score ∧ (CheckCollision s).flash = s.flash ∧
    (CheckCollision s).reset_timer = s.reset_timer ∧
    (CheckCollision s).target_x = s.target_x ∧ (CheckCollision s).target_y = s.target_y := by
  rw [CheckCollision_eq]
  exact ⟨rfl, rfl, rfl, rfl, rfl⟩

theorem afterMove_fields (cfg : Config) (s : State) :
    (afterMove cfg s).score = s.score ∧ (afterMove cfg s).flash = s.flash ∧
    (afterMove cfg s).reset_timer = s.reset_timer ∧
    (afterMove cfg s).target_x =
      (if s.target_dx = 0 then inc8 s.target_x else dec8 s.target_x) ∧
    (afterMove cfg s).target_y =
      (if s.target_dy = 0 then inc8 s.target_y else dec8 s.target_y) := by
  obtain ⟨px, py, hmp⟩ := movePlayer_keeps cfg s
  rw [afterMove, hmp, moveTarget_eq]
  exact ⟨rfl, rfl, rfl, rfl, rfl⟩

theorem afterCheck_fields (cfg : Config) (s : State) :
    (afterCheck cfg s).score = (if s.collided ≠ 0 then inc8 s.score else s.score) ∧
    (afterCheck cfg s).flash =
      (if s.collided ≠ 0 then 11 else (if s.flash > 0 then dec8 s.flash else s.flash)) ∧
    (afterCheck cfg s).reset_timer = (if s.collided ≠ 0 then 18 else s.reset_timer) ∧
    (afterCheck cfg s).target_x = s.target_x ∧ (afterCheck cfg s).target_y = s.target_y := by
  rw [afterCheck_eq]
  exact ⟨rfl, rfl, rfl, rfl, rfl⟩

theorem Update_normal_flash (cfg : Config) (s : State) (h : s.reset_timer = 0) :
    (Update cfg s).flash =
      if (CheckCollision (afterMove cfg s)).collided ≠ 0 then 11
      else (if s.flash > 0 then dec8 s.flash else s.flash) := by
  rw [Update_normal cfg s h, (afterCheck_fields cfg _).2.1, (CheckCollision_keeps _).2.1,
    (afterMove_fields cfg s).2.1]

theorem Update_normal_score (cfg : Config) (s : State) (h : s.reset_timer = 0) :
    (Update cfg s).score =
      if (CheckCollision (afterMove cfg s)).collided ≠ 0 then inc8 s.score else s.score := by
  rw [Update_normal cfg s h, (afterCheck_fields cfg _).1, (CheckCollision_keeps _).1,
    (afterMove_fields cfg s).1]

theorem Update_normal_target (cfg : Config) (s : State) (h : s.reset_timer = 0) :
    (Update cfg s).target_x = (if s.target_dx = 0 then inc8 s.target_x else dec8 s.target_x) ∧
    (Update cfg s).target_y = (if s.target_dy = 0 then inc8 s.target_y else dec8 s.target_y) := by
  rw [Update_normal cfg s h, (afterCheck_fields cfg _).2.2.2.1, (afterCheck_fields cfg _).2.2.2.2,
    (CheckCollision_keeps _).2.2.2.1, (CheckCollision_keeps _).2.2.2.2,
    (afterMove_fields cfg s).2.2.2.1, (afterMove_fields cfg s).2.2.2.2]
  exact ⟨rfl, rfl⟩

theorem Update_eq_SetSprites (cfg : Config) (s : State) :
    ∃ t, Update cfg s = SetSprites cfg t := by
  unfold Update
  split_ifs
  · exact ⟨_, rfl⟩
  · exact ⟨_, afterCheck_eq cfg _⟩

/-- C1: for all positions (in particular all 8-bit ones) `CheckCollision` sets `collided`
to 1 exactly when `|player_x - target_x| ≤ 7` and `|player_y - target_y| ≤ 7` over the
integers, and to 0 otherwise; 0x20 against 0x27 collides, 0x20 against 0x28 does not,
and 0xFC against 0x02 does not. -/
theorem C1_CheckCollision_iff_abs_le :
    (∀ s : State,
      ((CheckCollision s).collided = 1 ↔
        (|(s.player_x : Int) - (s.target_x : Int)| ≤ 7 ∧
         |(s.player_y : Int) - (s.target_y : Int)| ≤ 7)) ∧
      (¬ (|(s.player_x : Int) - (s.target_x : Int)| ≤ 7 ∧
          |(s.player_y : Int) - (s.target_y : Int)| ≤ 7) →
        (CheckCollision s).collided = 0)) ∧
    (∀ y : Nat, (CheckCollision (posState 0x20 y 0x27 y)).collided = 1) ∧
    (∀ y : Nat, (CheckCollision (posState 0x20 y 0x28 y)).collided = 0) ∧
    (∀ y : Nat, (CheckCollision (posState 0xFC y 0x02 y)).collided = 0) := by
  refine ⟨fun s => ?_, fun y => ?_, fun y => ?_, fun y => ?_⟩
  · rw [CheckCollision_collided, abs_le, abs_le]
    constructor
    · split_ifs with h
      · simp only [true_iff]; omega
      · simp only [zero_ne_one, false_iff]; omega
    · intro h
      rw [if_neg]
      omega
  · simp [CheckCollision_collided, posState]
  · simp [CheckCollision_collided, posState]
  · simp [CheckCollision_collided, posState]

/-- C2: exchanging the player position with the target position does not change the
value `CheckCollision` stores in `collided`. -/
theorem C2_CheckCollision_symmetric (s : State) :
    (CheckCollision (swapRoles s)).collided = (CheckCollision s).collided := by
  rw [CheckCollision_collided, CheckCollision_collided]
  simp only [swapRoles]
  split_ifs with h1 h2 h2 <;> first | rfl | (exfalso; omega)

/-- C3: `Init` puts the player at (0x20,0x20), the target at (0xC0,0x90) and sets score
to 0; and when the four input registers are zero in every frame there is an `n ≥ 1`
(it is 1097) such that none of the first `n - 1` `Update` calls detects a collision,
the `n`-th does, and right after it `score = 1` and `reset_timer = 18`. -/
theorem C3_first_collision_after_Init (cfg : Config) (s0 : State) (inp : Nat → Nat → Nat)
    (h : ∀ k, noInput cfg (inp k)) :
    ((Init cfg s0).player_x = 0x20 ∧ (Init cfg s0).player_y = 0x20 ∧
      (Init cfg s0).target_x = 0xC0 ∧ (Init cfg s0).target_y = 0x90 ∧
      (Init cfg s0).score = 0) ∧
    ∃ n, 1 ≤ n ∧
      (∀ k, k + 1 < n → ¬ detects cfg (entry cfg inp k (Init cfg s0))) ∧
      detects cfg (entry cfg inp (n - 1) (Init cfg s0)) ∧
      (runFrames cfg inp n (Init cfg s0)).score = 1 ∧
      (runFrames cfg inp n (Init cfg s0)).reset_timer = 18 := by
  refine ⟨⟨rfl, rfl, rfl, rfl, rfl⟩, 1097, by omega, ?_, ?_⟩
  · intro k hk
    exact (idleInv_step cfg (inp k) k _ (h k) (idleInv_run cfg inp s0 h k (by omega))
      (by omega)).1
  · exact idleInv_last cfg (inp 1096) _ (h 1096) (idleInv_run cfg inp s0 h 1096 (by omega))

/-- C3 at the sample constants, the all-zero start state and the all-zero input. -/
theorem C3_first_collision_after_Init_witness :
    (∀ k, noInput sampleConfig (idleInput k)) ∧
    (((Init sampleConfig (posState 0 0 0 0)).player_x = 0x20 ∧
      (Init sampleConfig (posState 0 0 0 0)).player_y = 0x20 ∧
      (Init sampleConfig (posState 0 0 0 0)).target_x = 0xC0 ∧
      (Init sampleConfig (posState 0 0 0 0)).target_y = 0x90 ∧
      (Init sampleConfig (posState 0 0 0 0)).score = 0) ∧
    ∃ n, 1 ≤ n ∧
      (∀ k, k + 1 < n →
        ¬ detects sampleConfig (entry sampleConfig idleInput k (Init sampleConfig (posState 0 0 0 0)))) ∧
      detects sampleConfig
        (entry sampleConfig idleInput (n - 1) (Init sampleConfig (posState 0 0 0 0))) ∧
      (runFrames sampleConfig idleInput n (Init sampleConfig (posState 0 0 0 0))).score = 1 ∧
      (runFrames sampleConfig idleInput n (Init sampleConfig (posState 0 0 0 0))).reset_timer
        = 18) :=
  ⟨fun _ => ⟨rfl, rfl, rfl, rfl⟩,
    C3_first_collision_after_Init sampleConfig (posState 0 0 0 0) idleInput
      (fun _ => ⟨rfl, rfl, rfl, rfl⟩)⟩

/-- C4: from any state with `reset_timer = 18`, whatever the memory snapshots of the
next 18 frames, the timer reads `18 - k` after `k < 18` calls, and after exactly 18 calls
it is 0 and player and target stand at (0x20,0x20) and (0xC0,0x90). -/
theorem C4_positions_reset_after_18 (cfg : Config) (s : State) (inp : Nat → Nat → Nat)
    (h : s.reset_timer = 18) :
    (runFrames cfg inp 18 s).reset_timer = 0 ∧
    (runFrames cfg inp 18 s).player_x = 0x20 ∧ (runFrames cfg inp 18 s).player_y = 0x20 ∧
    (runFrames cfg inp 18 s).target_x = 0xC0 ∧ (runFrames cfg inp 18 s).target_y = 0x90 ∧
    (∀ k, k < 18 → (runFrames cfg inp k s).reset_timer = 18 - k) := by
  have he := pending_run_end cfg inp s (by omega) (by omega)
  rw [h] at he
  obtain ⟨e1, e2, e3, e4, e5, _, _⟩ := he
  refine ⟨e1, e2, e3, e4, e5, ?_⟩
  intro k hk
  have hr := (pending_run cfg inp s (by omega) k (by omega)).1
  omega

/-- C4 at the state a collision frame leaves, with the all-zero input. -/
theorem C4_positions_reset_after_18_witness :
    justCollidedState.reset_timer = 18 ∧
    ((runFrames sampleConfig idleInput 18 justCollidedState).reset_timer = 0 ∧
    (runFrames sampleConfig idleInput 18 justCollidedState).player_x = 0x20 ∧
    (runFrames sampleConfig idleInput 18 justCollidedState).player_y = 0x20 ∧
    (runFrames sampleConfig idleInput 18 justCollidedState).target_x = 0xC0 ∧
    (runFrames sampleConfig idleInput 18 justCollidedState).target_y = 0x90 ∧
    (∀ k, k < 18 →
      (runFrames sampleConfig idleInput k justCollidedState).reset_timer = 18 - k)) :=
  ⟨rfl, C4_positions_reset_after_18 sampleConfig justCollidedState idleInput rfl⟩

/-- C5: on a well-formed state with `reset_timer > 0`, `Update` takes the early-return
branch: the timer drops by exactly 1, the result does not depend on `mem`, and score,
flash and collided keep their values; while the new timer is nonzero positions and
directions are unchanged, when it is zero they are the `Init` values, and the sprite
table written by the same call shows the resulting positions. -/
theorem C5_timer_gating_step (cfg : Config) (s : State) (hwf : s.WF)
    (h0 : s.reset_timer > 0) :
    (Update cfg s).reset_timer + 1 = s.reset_timer ∧
    Update cfg s = resetPending cfg s ∧
    (∀ m, Update cfg { s with mem := m } = { Update cfg s with mem := m }) ∧
    (Update cfg s).score = s.score ∧ (Update cfg s).flash = s.flash ∧
    (Update cfg s).collided = s.collided ∧
    ((Update cfg s).reset_timer ≠ 0 → samePositions (Update cfg s) s) ∧
    ((Update cfg s).reset_timer = 0 → atInitPositions (Update cfg s)) ∧
    spritesReflect cfg (Update cfg s) := by
  have h256 : s.reset_timer < 256 := hwf.2.2.2.2.2.2.2.2.1
  obtain ⟨f1, f2, f3, f4, f5, f6⟩ := frame_pending cfg s.mem s h0 h256
  have hU : frame cfg s.mem s = Update cfg s := rfl
  rw [hU] at f1 f2 f3 f4 f5 f6
  refine ⟨by omega, Update_pending cfg s h0, ?_, f2, f3, f4, ?_, ?_, ?_⟩
  · intro m
    rw [Update_pending cfg s h0, Update_pending cfg { s with mem := m } h0]
    unfold resetPending SetSprites
    simp only []
    split_ifs <;> rfl
  · intro hne
    exact f5 (by omega)
  · intro he
    exact f6 (by omega)
  · obtain ⟨t, ht⟩ := Update_eq_SetSprites cfg s
    rw [ht]
    exact SetSprites_reflect cfg t

/-- C5 at a state whose countdown stands at 1. -/
theorem C5_timer_gating_step_witness :
    resetDueState.WF ∧ resetDueState.reset_timer > 0 ∧
    ((Update sampleConfig resetDueState).reset_timer + 1 = resetDueState.reset_timer ∧
    Update sampleConfig resetDueState = resetPending sampleConfig resetDueState ∧
    (∀ m, Update sampleConfig { resetDueState with mem := m } =
      { Update sampleConfig resetDueState with mem := m }) ∧
    (Update sampleConfig resetDueState).score = resetDueState.score ∧
    (Update sampleConfig resetDueState).flash = resetDueState.flash ∧
    (Update sampleConfig resetDueState).collided = resetDueState.collided ∧
    ((Update sampleConfig resetDueState).reset_timer ≠ 0 →
      samePositions (Update sampleConfig resetDueState) resetDueState) ∧
    ((Update sampleConfig resetDueState).reset_timer = 0 →
      atInitPositions (Update sampleConfig resetDueState)) ∧
    spritesReflect sampleConfig (Update sampleConfig resetDueState)) :=
  ⟨by decide, by decide,
    C5_timer_gating_step sampleConfig resetDueState (by decide) (by decide)⟩

/-- C6, as stated, fails: with the countdown at `N = 1` the very first `Update` call
already performs the reset (the player jumps from 0x50 to 0x20 and the timer is 0), and
the second call runs the normal logic (the target leaves 0xC0 for 0xC1). -/
theorem C6_timer_gating_as_stated_fails :
    resetDueState.WF ∧ resetDueState.reset_timer = 1 ∧
    isResetFrame (entry sampleConfig idleInput 0 resetDueState) ∧
    resetDueState.player_x = 0x50 ∧
    (runFrames sampleConfig idleInput 1 resetDueState).player_x = 0x20 ∧
    (runFrames sampleConfig idleInput 1 resetDueState).reset_timer = 0 ∧
    isNormalFrame (entry sampleConfig idleInput 1 resetDueState) ∧
    (runFrames sampleConfig idleInput 1 resetDueState).target_x = 0xC0 ∧
    (runFrames sampleConfig idleInput 2 resetDueState).target_x = 0xC1 ∧
    ¬ timerGatingAsStated sampleConfig idleInput 1 resetDueState := by
  refine ⟨by decide, rfl, by decide, rfl, by decide, by decide, by decide, by decide,
    by decide, ?_⟩
  intro h
  have h0 := h.1 0 (by omega)
  revert h0
  decide

/-- C6, amended: when `reset_timer` has just been set to `N` with `0 < N < 256`, the
first `N - 1` `Update` calls are reset-pending and leave positions and directions as
they were, the `N`-th call performs the reset to the `Init` positions and leaves the
timer at 0, and the `(N+1)`-th call runs the normal logic (input, target movement,
collision check). -/
theorem C6_timer_gating_run (cfg : Config) (inp : Nat → Nat → Nat) (N : Nat) (s : State)
    (hN : 0 < N) (h256 : N < 256) (h : s.reset_timer = N) :
    (∀ k, k + 1 < N →
      isPendingFrame (entry cfg inp k s) ∧ samePositions (runFrames cfg inp (k + 1) s) s) ∧
    isResetFrame (entry cfg inp (N - 1) s) ∧
    atInitPositions (runFrames cfg inp N s) ∧
    (runFrames cfg inp N s).reset_timer = 0 ∧
    isNormalFrame (entry cfg inp N s) ∧
    runFrames cfg inp (N + 1) s =
      afterCheck cfg (CheckCollision (afterMove cfg (entry cfg inp N s))) := by
  subst h
  have hend := pending_run_end cfg inp s hN h256
  refine ⟨?_, ?_, hend.2, hend.1, ?_, ?_⟩
  · intro k hk
    have hr := (pending_run cfg inp s h256 k (by omega)).1
    refine ⟨⟨?_, ?_⟩, (pending_run cfg inp s h256 (k + 1) (by omega)).2⟩
    · show (runFrames cfg inp k s).reset_timer > 0
      omega
    · show dec8 (runFrames cfg inp k s).reset_timer ≠ 0
      unfold dec8
      omega
  · have hr := (pending_run cfg inp s h256 (s.reset_timer - 1) (by omega)).1
    refine ⟨?_, ?_⟩
    · show (runFrames cfg inp (s.reset_timer - 1) s).reset_timer > 0
      omega
    · show dec8 (runFrames cfg inp (s.reset_timer - 1) s).reset_timer = 0
      unfold dec8
      omega
  · show ¬ (runFrames cfg inp s.reset_timer s).reset_timer > 0
    omega
  · exact Update_normal cfg (entry cfg inp s.reset_timer s) hend.1

/-- C6 (amended) at a countdown of 18 with the all-zero input. -/
theorem C6_timer_gating_run_witness :
    0 < 18 ∧ 18 < 256 ∧ justCollidedState.reset_timer = 18 ∧
    ((∀ k, k + 1 < 18 →
      isPendingFrame (entry sampleConfig idleInput k justCollidedState) ∧
      samePositions (runFrames sampleConfig idleInput (k + 1) justCollidedState)
        justCollidedState) ∧
    isResetFrame (entry sampleConfig idleInput (18 - 1) justCollidedState) ∧
    atInitPositions (runFrames sampleConfig idleInput 18 justCollidedState) ∧
    (runFrames sampleConfig idleInput 18 justCollidedState).reset_timer = 0 ∧
    isNormalFrame (entry sampleConfig idleInput 18 justCollidedState) ∧
    runFrames sampleConfig idleInput (18 + 1) justCollidedState =
      afterCheck sampleConfig (CheckCollision
        (afterMove sampleConfig (entry sampleConfig idleInput 18 justCollidedState)))) :=
  ⟨by decide, by decide, rfl,
    C6_timer_gating_run sampleConfig idleInput 18 justCollidedState (by decide) (by decide)
      rfl⟩

/-- C7, as stated, fails: on a state where player and target overlap, `Update` detects
the collision and returns with `flash = 11`, not 12. -/
theorem C7_flash_12_fails :
    detects sampleConfig overlapState ∧
    (Update sampleConfig overlapState).flash = 11 ∧
    (Update sampleConfig overlapState).flash ≠ 12 := by
  decide

/-- C7, amended: after any `Update` call in which a collision is detected, `flash`
equals 11: the call assigns 12 and then decrements it once before returning. -/
theorem C7_flash_after_collision (cfg : Config) (s : State) (h : detects cfg s) :
    (Update cfg s).flash = 11 := by
  rw [Update_normal_flash cfg s h.1, if_pos h.2]

/-- C7 (amended) at a state where player and target overlap. -/
theorem C7_flash_after_collision_witness :
    detects sampleConfig (posState 0x20 0x20 0x26 0x26) ∧
    (Update sampleConfig (posState 0x20 0x20 0x26 0x26)).flash = 11 :=
  ⟨by decide, C7_flash_after_collision sampleConfig (posState 0x20 0x20 0x26 0x26) (by decide)⟩

/-- C8: `Update` changes `score` only when it detects a collision (timer 0 on entry and
`collided` set by the check after the movement step); then the new score is
`(score + 1) mod 256`, so 0xFF becomes 0x00, and otherwise score keeps its value. -/
theorem C8_score_update :
    (∀ (cfg : Config) (s : State),
      (Update cfg s).score = if detects cfg s then (s.score + 1) % 256 else s.score) ∧
    (overlapState.score = 0xFF ∧ detects sampleConfig overlapState ∧
      (Update sampleConfig overlapState).score = 0x00) := by
  refine ⟨fun cfg s => ?_, by decide⟩
  by_cases hr : s.reset_timer = 0
  · rw [Update_normal_score cfg s hr]
    by_cases hc : (CheckCollision (afterMove cfg s)).collided ≠ 0
    · rw [if_pos hc, if_pos (show detects cfg s from ⟨hr, hc⟩)]
      rfl
    · rw [if_neg hc, if_neg (show ¬ detects cfg s from fun hd => hc hd.2)]
  · rw [if_neg (show ¬ detects cfg s from fun hd => hr hd.1),
      Update_pending cfg s (by omega)]
    unfold resetPending SetSprites
    simp only []
    split_ifs <;> rfl

/-- C9: after `Init` and after every `Update` call, from any state and on every branch,
`sprite[0]` holds the player position and `sprite[1]` the target position, and both
descriptors have tile `SPR_CHIPCADE`, flags 0x10 and reserved 0. -/
theorem C9_sprite_table_reflects_state (cfg : Config) (s : State) :
    spritesReflect cfg (Init cfg s) ∧ spritesReflect cfg (Update cfg s) := by
  refine ⟨SetSprites_reflect cfg _, ?_⟩
  obtain ⟨t, ht⟩ := Update_eq_SetSprites cfg s
  rw [ht]
  exact SetSprites_reflect cfg t

/-- C10: on every state with `reset_timer = 0`, `Update` sets `target_x` to
`(target_x + 1) mod 256` when `target_dx = 0` and to `(target_x - 1) mod 256` otherwise,
and likewise `target_y` by `target_dy`; so 0xFF moving up becomes 0x00 and 0x00 moving
down becomes 0xFF. -/
theorem C10_target_wraps (cfg : Config) (s : State) (h : s.reset_timer = 0) :
    ((s.target_dx = 0 → (Update cfg s).target_x = (s.target_x + 1) % 256) ∧
     (s.target_dx ≠ 0 →
        ((Update cfg s).target_x : Int) = ((s.target_x : Int) - 1) % 256) ∧
     (s.target_dy = 0 → (Update cfg s).target_y = (s.target_y + 1) % 256) ∧
     (s.target_dy ≠ 0 →
        ((Update cfg s).target_y : Int) = ((s.target_y : Int) - 1) % 256)) ∧
    (s.target_x = 0xFF → s.target_dx = 0 → (Update cfg s).target_x = 0x00) ∧
    (s.target_x = 0x00 → s.target_dx ≠ 0 → (Update cfg s).target_x = 0xFF) := by
  obtain ⟨hx, hy⟩ := Update_normal_target cfg s h
  rw [hx, hy]
  unfold inc8 dec8
  refine ⟨⟨?_, ?_, ?_, ?_⟩, ?_, ?_⟩
  · intro h0; rw [if_pos h0]
  · intro h0; rw [if_neg h0]; omega
  · intro h0; rw [if_pos h0]
  · intro h0; rw [if_neg h0]; omega
  · intro h1 h0; rw [if_pos h0, h1]
  · intro h1 h0; rw [if_neg h0, h1]

/-- C10 at a target in the top-right corner value 0xFF moving up. -/
theorem C10_target_wraps_witness :
    (posState 0x20 0x20 0xFF 0x00).reset_timer = 0 ∧
    (Update sampleConfig (posState 0x20 0x20 0xFF 0x00)).target_x = 0x00 :=
  ⟨rfl, (C10_target_wraps sampleConfig (posState 0x20 0x20 0xFF 0x00) rfl).2.1 rfl rfl⟩

/-! ### Normal form of the input stage -/

theorem pressLeft_eq (cfg : Config) (s : State) :
    pressLeft cfg s =
      { s with player_x :=
          if s.mem cfg.IO_LEFT ≠ 0 ∧ s.player_x > 0x10 then dec8 s.player_x
          else s.player_x } := by
  unfold pressLeft
  by_cases h1 : s.mem cfg.IO_LEFT ≠ 0 <;> by_cases h2 : s.player_x > 0x10 <;> simp [h1, h2]

theorem pressRight_eq (cfg : Config) (s : State) :
    pressRight cfg s =
      { s with player_x :=
          if s.mem cfg.IO_RIGHT ≠ 0 ∧ s.player_x < 0xE8 then inc8 s.player_x
          else s.player_x } := by
  unfold pressRight
  by_cases h1 : s.mem cfg.IO_RIGHT ≠ 0 <;> by_cases h2 : s.player_x < 0xE8 <;> simp [h1, h2]

theorem pressUp_eq (cfg : Config) (s : State) :
    pressUp cfg s =
      { s with player_y :=
          if s.mem cfg.IO_UP ≠ 0 ∧ s.player_y > 0x18 then dec8 s.player_y
          else s.player_y } := by
  unfold pressUp
  by_cases h1 : s.mem cfg.IO_UP ≠ 0 <;> by_cases h2 : s.player_y > 0x18 <;> simp [h1, h2]

theorem pressDown_eq (cfg : Config) (s : State) :
    pressDown cfg s =
      { s with player_y :=
          if s.mem cfg.IO_DOWN ≠ 0 ∧ s.player_y < 0xB0 then inc8 s.player_y
          else s.player_y } := by
  unfold pressDown
  by_cases h1 : s.mem cfg.IO_DOWN ≠ 0 <;> by_cases h2 : s.player_y < 0xB0 <;> simp [h1, h2]

theorem movePlayer_eq (cfg : Config) (s : State) :
    movePlayer cfg s =
      { s with
        player_x :=
          if s.mem cfg.IO_RIGHT ≠ 0 ∧
              (if s.mem cfg.IO_LEFT ≠ 0 ∧ s.player_x > 0x10 then dec8 s.player_x
               else s.player_x) < 0xE8 then
            inc8 (if s.mem cfg.IO_LEFT ≠ 0 ∧ s.player_x > 0x10 then dec8 s.player_x
                  else s.player_x)
          else
            (if s.mem cfg.IO_LEFT ≠ 0 ∧ s.player_x > 0x10 then dec8 s.player_x
             else s.player_x),
        player_y :=
          if s.mem cfg.IO_DOWN ≠ 0 ∧
              (if s.mem cfg.IO_UP ≠ 0 ∧ s.player_y > 0x18 then dec8 s.player_y
               else s.player_y) < 0xB0 then
            inc8 (if s.mem cfg.IO_UP ≠ 0 ∧ s.player_y > 0x18 then dec8 s.player_y
                  else s.player_y)
          else
            (if s.mem cfg.IO_UP ≠ 0 ∧ s.player_y > 0x18 then dec8 s.player_y
             else s.player_y) } := by
  unfold movePlayer
  rw [pressLeft_eq, pressRight_eq, pressUp_eq, pressDown_eq]

theorem CheckCollision_positions (t : State) : samePositions (CheckCollision t) t := by
  rw [CheckCollision_eq]
  exact ⟨rfl, rfl, rfl, rfl, rfl, rfl⟩

theorem afterCheck_positions (cfg : Config) (t : State) :
    samePositions (afterCheck cfg t) t := by
  rw [afterCheck_eq]
  exact ⟨rfl, rfl, rfl, rfl, rfl, rfl⟩

theorem Update_normal_positions (cfg : Config) (s : State) (h : s.reset_timer = 0) :
    samePositions (Update cfg s) (afterMove cfg s) := by
  rw [Update_normal cfg s h]
  have h1 := afterCheck_positions cfg (CheckCollision (afterMove cfg s))
  have h2 := CheckCollision_positions (afterMove cfg s)
  unfold samePositions at *
  omega

theorem moveTarget_player (t : State) :
    (moveTarget t).player_x = t.player_x ∧ (moveTarget t).player_y = t.player_y := by
  rw [moveTarget_eq]
  exact ⟨rfl, rfl⟩

theorem Update_normal_player (cfg : Config) (s : State) (h : s.reset_timer = 0) :
    (Update cfg s).player_x = (movePlayer cfg s).player_x ∧
    (Update cfg s).player_y = (movePlayer cfg s).player_y := by
  have h1 := Update_normal_positions cfg s h
  have h2 := moveTarget_player (movePlayer cfg s)
  unfold samePositions at h1
  unfold afterMove at h1
  omega

/-! ### Replacing the memory snapshot -/

theorem movePlayer_mem (cfg : Config) (s : State) (m1 m2 : Nat → Nat)
    (h : sameButtons cfg m1 m2) :
    movePlayer cfg { s with mem := m2 } = { movePlayer cfg { s with mem := m1 } with mem := m2 } := by
  obtain ⟨hL, hR, hU, hD⟩ := h
  have eL : (m2 cfg.IO_LEFT = 0) = (m1 cfg.IO_LEFT = 0) := propext hL.symm
  have eR : (m2 cfg.IO_RIGHT = 0) = (m1 cfg.IO_RIGHT = 0) := propext hR.symm
  have eU : (m2 cfg.IO_UP = 0) = (m1 cfg.IO_UP = 0) := propext hU.symm
  have eD : (m2 cfg.IO_DOWN = 0) = (m1 cfg.IO_DOWN = 0) := propext hD.symm
  rw [movePlayer_eq, movePlayer_eq]
  simp only [ne_eq, eL, eR, eU, eD]

theorem moveTarget_mem (t : State) (m : Nat → Nat) :
    moveTarget { t with mem := m } = { moveTarget t with mem := m } := by
  rw [moveTarget_eq, moveTarget_eq]

theorem CheckCollision_mem (t : State) (m : Nat → Nat) :
    CheckCollision { t with mem := m } = { CheckCollision t with mem := m } := by
  rw [CheckCollision_eq, CheckCollision_eq]

theorem afterCheck_mem (cfg : Config) (t : State) (m : Nat → Nat) :
    afterCheck cfg { t with mem := m } = { afterCheck cfg t with mem := m } := by
  rw [afterCheck_eq, afterCheck_eq]
  rfl

theorem resetPending_mem (cfg : Config) (t : State) (m : Nat → Nat) :
    resetPending cfg { t with mem := m } = { resetPending cfg t with mem := m } := by
  unfold resetPending SetSprites
  simp only []
  split_ifs <;> rfl

theorem frame_sameButtons (cfg : Config) (s : State) (m1 m2 : Nat → Nat)
    (h : sameButtons cfg m1 m2) :
    frame cfg m2 s = { frame cfg m1 s with mem := m2 } := by
  unfold frame
  by_cases hr : s.reset_timer = 0
  · rw [Update_normal cfg { s with mem := m2 } hr, Update_normal cfg { s with mem := m1 } hr,
      afterMove, afterMove, movePlayer_mem cfg s m1 m2 h, moveTarget_mem, CheckCollision_mem,
      afterCheck_mem]
  · have h0 : 0 < s.reset_timer := by omega
    rw [Update_pending cfg { s with mem := m2 } h0, Update_pending cfg { s with mem := m1 } h0,
      resetPending_mem cfg s m2, resetPending_mem cfg s m1]

/-! ### The position bounds as an invariant -/

theorem bounds_Init (cfg : Config) (s0 : State) :
    inBounds (Init cfg s0) ∧ headingInward (Init cfg s0) := by
  unfold inBounds headingInward Init SetSprites
  simp

theorem bounds_afterMove (cfg : Config) (s : State) (hb : inBounds s)
    (hh : headingInward s) :
    inBounds (afterMove cfg s) ∧ headingInward (afterMove cfg s) := by
  obtain ⟨b1, b2, b3, b4, b5, b6, b7, b8⟩ := hb
  obtain ⟨i1, i2, i3, i4⟩ := hh
  rw [afterMove, moveTarget_eq, movePlayer_eq]
  unfold inBounds headingInward inc8 dec8
  simp only []
  refine ⟨⟨?_, ?_, ?_, ?_, ?_, ?_, ?_, ?_⟩, ?_, ?_, ?_, ?_⟩
  all_goals split_ifs <;> first | omega | (intro hd; exact hd.elim)

theorem bounds_resetPending (cfg : Config) (s : State) (hb : inBounds s)
    (hh : headingInward s) :
    inBounds (resetPending cfg s) ∧ headingInward (resetPending cfg s) := by
  unfold resetPending SetSprites inBounds headingInward at *
  simp only []
  split_ifs
  · simp
  · exact ⟨hb, hh⟩

theorem bounds_Update (cfg : Config) (s : State) (hb : inBounds s) (hh : headingInward s) :
    inBounds (Update cfg s) ∧ headingInward (Update cfg s) := by
  by_cases hr : s.reset_timer = 0
  · have hp := Update_normal_positions cfg s hr
    have ha := bounds_afterMove cfg s hb hh
    unfold samePositions at hp
    unfold inBounds headingInward at *
    omega
  · rw [Update_pending cfg s (by omega)]
    exact bounds_resetPending cfg s hb hh

theorem bounds_run (cfg : Config) (inp : Nat → Nat → Nat) (s0 : State) :
    ∀ n, inBounds (runFrames cfg inp n (Init cfg s0)) ∧
      headingInward (runFrames cfg inp n (Init cfg s0)) := by
  intro n
  induction n with
  | zero => exact bounds_Init cfg s0
  | succ n ih => exact bounds_Update cfg _ ih.1 ih.2

theorem CheckCollision8_collided (s : State) :
    (CheckCollision8 s).collided =
      if (s.player_x + 7) % 256 ≥ s.target_x ∧ (s.target_x + 7) % 256 ≥ s.player_x ∧
         (s.player_y + 7) % 256 ≥ s.target_y ∧ (s.target_y + 7) % 256 ≥ s.player_y
      then 1 else 0 := by
  unfold CheckCollision8
  split_ifs <;> simp_all

theorem CheckCollision8_of_coordsBelowF8 (s : State) (h : coordsBelowF8 s) :
    (CheckCollision8 s).collided = (CheckCollision s).collided := by
  obtain ⟨h1, h2, h3, h4⟩ := h
  rw [CheckCollision8_collided, CheckCollision_collided]
  have e1 : (s.player_x + 7) % 256 = s.player_x + 7 := by omega
  have e2 : (s.target_x + 7) % 256 = s.target_x + 7 := by omega
  have e3 : (s.player_y + 7) % 256 = s.player_y + 7 := by omega
  have e4 : (s.target_y + 7) % 256 = s.target_y + 7 := by omega
  rw [e1, e2, e3, e4]

theorem coordsBelowF8_of_inBounds (s : State) (h : inBounds s) : coordsBelowF8 s := by
  unfold inBounds at h
  unfold coordsBelowF8
  omega

theorem SetSprites_palette (cfg : Config) (s : State) :
    paletteReflects (SetSprites cfg s) ∧ paletteBounded (SetSprites cfg s) := by
  unfold paletteReflects paletteBounded SetSprites writeSprite
  by_cases hf : s.flash ≥ 6 <;> by_cases hs : s.score ≥ 16 <;> simp [hf, hs] <;> omega

/-- C12: the input registers are read only as zero or nonzero and nothing else in
memory is read: when two memories agree on which of `mem[IO_LEFT]`, `mem[IO_RIGHT]`,
`mem[IO_UP]`, `mem[IO_DOWN]` are zero, `Update` run on the one gives the same game
variables and the same sprite table as run on the other. -/
theorem C12_only_button_state_is_read (cfg : Config) (s : State) (m1 m2 : Nat → Nat)
    (h : sameButtons cfg m1 m2) :
    Update cfg { s with mem := m2 } = { Update cfg { s with mem := m1 } with mem := m2 } :=
  frame_sameButtons cfg s m1 m2 h

/-- C12 at two memories that hold left and down with different nonzero bytes and differ
elsewhere too. -/
theorem C12_only_button_state_is_read_witness :
    sameButtons sampleConfig leftDownMem leftDownMemAlt ∧
    leftDownMem 0 ≠ leftDownMemAlt 0 ∧ leftDownMem 100 ≠ leftDownMemAlt 100 ∧
    Update sampleConfig { posState 0x40 0x40 0x80 0x80 with mem := leftDownMemAlt } =
      { Update sampleConfig { posState 0x40 0x40 0x80 0x80 with mem := leftDownMem } with
        mem := leftDownMemAlt } :=
  ⟨by decide, by decide, by decide,
    C12_only_button_state_is_read sampleConfig (posState 0x40 0x40 0x80 0x80) leftDownMem
      leftDownMemAlt (by decide)⟩

/-- C15: every state reached from `Init` by any number of `Update` calls, whatever the
memory snapshots, has `0x10 ≤ player_x, target_x ≤ 0xE8` and
`0x18 ≤ player_y, target_y ≤ 0xB0`, and its target is not at the edge it is heading for;
so the next normal `Update` moves the target by exactly one and the player by at most
one over the integers, without wrapping around 0/255. -/
theorem C15_position_bounds_invariant (cfg : Config) (s0 : State) (inp : Nat → Nat → Nat)
    (n : Nat) :
    inBounds (runFrames cfg inp n (Init cfg s0)) ∧
    headingInward (runFrames cfg inp n (Init cfg s0)) ∧
    ((runFrames cfg inp n (Init cfg s0)).reset_timer = 0 →
      (runFrames cfg inp (n + 1) (Init cfg s0)).target_x =
        (if (runFrames cfg inp n (Init cfg s0)).target_dx = 0
          then (runFrames cfg inp n (Init cfg s0)).target_x + 1
          else (runFrames cfg inp n (Init cfg s0)).target_x - 1) ∧
      (runFrames cfg inp (n + 1) (Init cfg s0)).target_y =
        (if (runFrames cfg inp n (Init cfg s0)).target_dy = 0
          then (runFrames cfg inp n (Init cfg s0)).target_y + 1
          else (runFrames cfg inp n (Init cfg s0)).target_y - 1) ∧
      (runFrames cfg inp (n + 1) (Init cfg s0)).player_x ≤
        (runFrames cfg inp n (Init cfg s0)).player_x + 1 ∧
      (runFrames cfg inp n (Init cfg s0)).player_x ≤
        (runFrames cfg inp (n + 1) (Init cfg s0)).player_x + 1 ∧
      (runFrames cfg inp (n + 1) (Init cfg s0)).player_y ≤
        (runFrames cfg inp n (Init cfg s0)).player_y + 1 ∧
      (runFrames cfg inp n (Init cfg s0)).player_y ≤
        (runFrames cfg inp (n + 1) (Init cfg s0)).player_y + 1) := by
  obtain ⟨hb, hh⟩ := bounds_run cfg inp s0 n
  refine ⟨hb, hh, ?_⟩
  intro hr
  have e : runFrames cfg inp (n + 1) (Init cfg s0) =
      frame cfg (inp n) (runFrames cfg inp n (Init cfg s0)) := rfl
  rw [e]
  generalize runFrames cfg inp n (Init cfg s0) = s at hb hh hr ⊢
  unfold frame
  obtain ⟨tx, ty⟩ := Update_normal_target cfg { s with mem := inp n } hr
  obtain ⟨px, py⟩ := Update_normal_player cfg { s with mem := inp n } hr
  rw [tx, ty, px, py, movePlayer_eq]
  obtain ⟨b1, b2, b3, b4, b5, b6, b7, b8⟩ := hb
  obtain ⟨i1, i2, i3, i4⟩ := hh
  unfold inc8 dec8
  simp only []
  refine ⟨?_, ?_, ?_, ?_, ?_, ?_⟩
  all_goals split_ifs <;> omega

/-- C16: whenever the four coordinates are at most 0xF8, `CheckCollision` with the
`+ 7` sums truncated to 8 bits stores the same `collided` as `CheckCollision` with
promoted sums; this covers every state reached from `Init` and every state on which
`Update` calls `CheckCollision` in a frame started from such a state. -/
theorem C16_truncated_sums_agree :
    (∀ s : State, coordsBelowF8 s →
      (CheckCollision8 s).collided = (CheckCollision s).collided) ∧
    (∀ (cfg : Config) (s0 : State) (inp : Nat → Nat → Nat) (n : Nat),
      coordsBelowF8 (runFrames cfg inp n (Init cfg s0)) ∧
      (CheckCollision8 (runFrames cfg inp n (Init cfg s0))).collided =
        (CheckCollision (runFrames cfg inp n (Init cfg s0))).collided) ∧
    (∀ (cfg : Config) (s0 : State) (inp : Nat → Nat → Nat) (n : Nat),
      coordsBelowF8 (afterMove cfg (entry cfg inp n (Init cfg s0))) ∧
      (CheckCollision8 (afterMove cfg (entry cfg inp n (Init cfg s0)))).collided =
        (CheckCollision (afterMove cfg (entry cfg inp n (Init cfg s0)))).collided) := by
  refine ⟨CheckCollision8_of_coordsBelowF8, ?_, ?_⟩
  · intro cfg s0 inp n
    have hc := coordsBelowF8_of_inBounds _ (bounds_run cfg inp s0 n).1
    exact ⟨hc, CheckCollision8_of_coordsBelowF8 _ hc⟩
  · intro cfg s0 inp n
    obtain ⟨hb, hh⟩ := bounds_run cfg inp s0 n
    have hb' : inBounds (entry cfg inp n (Init cfg s0)) := hb
    have hh' : headingInward (entry cfg inp n (Init cfg s0)) := hh
    have hc := coordsBelowF8_of_inBounds _ (bounds_afterMove cfg _ hb' hh').1
    exact ⟨hc, CheckCollision8_of_coordsBelowF8 _ hc⟩

/-- C17: in the normal branch, with left and right both held and
`0x10 ≤ player_x ≤ 0xE8`, `Update` leaves `player_x` unchanged when it is above 0x10 and
sets it to 0x11 when it is 0x10; with up and down both held and
`0x18 ≤ player_y ≤ 0xB0`, `player_y` is unchanged above 0x18 and becomes 0x19 at 0x18. -/
theorem C17_opposite_buttons (cfg : Config) (s : State) (h : s.reset_timer = 0) :
    (s.mem cfg.IO_LEFT ≠ 0 → s.mem cfg.IO_RIGHT ≠ 0 → 0x10 ≤ s.player_x →
      s.player_x ≤ 0xE8 →
      (Update cfg s).player_x = if s.player_x > 0x10 then s.player_x else 0x11) ∧
    (s.mem cfg.IO_UP ≠ 0 → s.mem cfg.IO_DOWN ≠ 0 → 0x18 ≤ s.player_y →
      s.player_y ≤ 0xB0 →
      (Update cfg s).player_y = if s.player_y > 0x18 then s.player_y else 0x19) := by
  obtain ⟨px, py⟩ := Update_normal_player cfg s h
  rw [px, py, movePlayer_eq]
  unfold inc8 dec8
  simp only []
  refine ⟨?_, ?_⟩
  · intro hL hR h1 h2
    split_ifs <;> omega
  · intro hU hD h1 h2
    split_ifs <;> omega

/-- C17 at the low corner (0x10,0x18) with all four buttons held. -/
theorem C17_opposite_buttons_witness :
    ({ posState 0x10 0x18 0x80 0x80 with mem := allHeldMem } : State).reset_timer = 0 ∧
    (Update sampleConfig { posState 0x10 0x18 0x80 0x80 with mem := allHeldMem }).player_x
      = 0x11 ∧
    (Update sampleConfig { posState 0x10 0x18 0x80 0x80 with mem := allHeldMem }).player_y
      = 0x19 :=
  ⟨rfl,
    (C17_opposite_buttons sampleConfig { posState 0x10 0x18 0x80 0x80 with mem := allHeldMem }
      rfl).1 (by decide) (by decide) (by decide) (by decide),
    (C17_opposite_buttons sampleConfig { posState 0x10 0x18 0x80 0x80 with mem := allHeldMem }
      rfl).2 (by decide) (by decide) (by decide) (by decide)⟩

/-- C19: after `SetSprites`, hence after `Init` and after every `Update`, `sprite[0]`
has palette `(min(score, 15), 7, 15)` and `sprite[1]` has palette `(2, 10, 15)` when
`flash ≥ 6` and `(12, 5, 15)` otherwise, so every palette slot index written is at
most 15 whatever the score. -/
theorem C19_palette_selection (cfg : Config) (s : State) :
    (paletteReflects (SetSprites cfg s) ∧ paletteBounded (SetSprites cfg s)) ∧
    (paletteReflects (Init cfg s) ∧ paletteBounded (Init cfg s)) ∧
    (paletteReflects (Update cfg s) ∧ paletteBounded (Update cfg s)) := by
  refine ⟨SetSprites_palette cfg s, SetSprites_palette cfg _, ?_⟩
  obtain ⟨t, ht⟩ := Update_eq_SetSprites cfg s
  rw [ht]
  exact SetSprites_palette cfg t

/-! ### What `Init` and `Update` leave untouched -/

theorem SetSprites_untouched (cfg : Config) (t : State) :
    (SetSprites cfg t).mem = t.mem ∧
    ∀ i, i ≠ 0 → i ≠ 1 → (SetSprites cfg t).sprite i = t.sprite i := by
  refine ⟨rfl, ?_⟩
  intro i h0 h1
  unfold SetSprites writeSprite
  simp [h0, h1]

theorem afterMove_untouched (cfg : Config) (s : State) :
    (afterMove cfg s).mem = s.mem ∧ (afterMove cfg s).sprite = s.sprite := by
  obtain ⟨px, py, hmp⟩ := movePlayer_keeps cfg s
  rw [afterMove, hmp, moveTarget_eq]
  exact ⟨rfl, rfl⟩

theorem CheckCollision_untouched (t : State) :
    (CheckCollision t).mem = t.mem ∧ (CheckCollision t).sprite = t.sprite := by
  rw [CheckCollision_eq]
  exact ⟨rfl, rfl⟩

theorem Update_untouched (cfg : Config) (s : State) :
    (Update cfg s).mem = s.mem ∧
    ∀ i, i ≠ 0 → i ≠ 1 → (Update cfg s).sprite i = s.sprite i := by
  by_cases hr : s.reset_timer = 0
  · obtain ⟨a1, a2⟩ := afterMove_untouched cfg s
    obtain ⟨c1, c2⟩ := CheckCollision_untouched (afterMove cfg s)
    rw [Update_normal cfg s hr, afterCheck_eq]
    obtain ⟨u1, u2⟩ := SetSprites_untouched cfg
      { CheckCollision (afterMove cfg s) with
        score := if (CheckCollision (afterMove cfg s)).collided ≠ 0
          then inc8 (CheckCollision (afterMove cfg s)).score
          else (CheckCollision (afterMove cfg s)).score,
        flash := if (CheckCollision (afterMove cfg s)).collided ≠ 0 then 11
          else (if (CheckCollision (afterMove cfg s)).flash > 0
            then dec8 (CheckCollision (afterMove cfg s)).flash
            else (CheckCollision (afterMove cfg s)).flash),
        reset_timer := if (CheckCollision (afterMove cfg s)).collided ≠ 0 then 18
          else (CheckCollision (afterMove cfg s)).reset_timer }
    refine ⟨?_, ?_⟩
    · rw [u1]
      show (CheckCollision (afterMove cfg s)).mem = s.mem
      rw [c1, a1]
    · intro i h0 h1
      rw [u2 i h0 h1]
      show (CheckCollision (afterMove cfg s)).sprite i = s.sprite i
      rw [c2, a2]
  · rw [Update_pending cfg s (by omega)]
    unfold resetPending
    simp only []
    split_ifs
    · exact SetSprites_untouched cfg _
    · exact SetSprites_untouched cfg _

end Chase

namespace Embedded

/-! ### The embedded demo -/

theorem Update_eq (cfg : Config) (s : State) :
    Update cfg s =
      SetSprite cfg
        { s with
          spr_pos_x := if s.spr_dir = 0 then inc8 s.spr_pos_x else dec8 s.spr_pos_x,
          spr_dir :=
            if s.spr_dir = 0 then (if inc8 s.spr_pos_x ≥ 0xDC then 1 else s.spr_dir)
            else (if dec8 s.spr_pos_x ≤ 0x10 then 0 else s.spr_dir),
          spr_frame := inc8 s.spr_frame } := by
  unfold Update
  simp only []
  split_ifs <;> rfl

theorem Update_spr_frame (cfg : Config) (s : State) :
    (Update cfg s).spr_frame = (s.spr_frame + 1) % 256 := by
  rw [Update_eq]
  rfl

theorem run_spr_frame (cfg : Config) (inp : Nat → Nat → Nat) (s0 : State) :
    ∀ n, (runFrames cfg inp n (Init cfg s0)).spr_frame = n % 256 := by
  intro n
  induction n with
  | zero => rfl
  | succ n ih =>
    show (Update cfg { runFrames cfg inp n (Init cfg s0) with mem := inp n }).spr_frame = _
    rw [Update_spr_frame]
    show ((runFrames cfg inp n (Init cfg s0)).spr_frame + 1) % 256 = _
    rw [ih]
    omega

theorem sweepInv_Init (cfg : Config) (s0 : State) : sweepInv (Init cfg s0) := by
  unfold sweepInv Init SetSprite
  simp

theorem sweepInv_Update (cfg : Config) (s : State) (h : sweepInv s) :
    sweepInv (Update cfg s) := by
  obtain ⟨h1, h2, h3, h4, h5⟩ := h
  rw [Update_eq]
  unfold sweepInv SetSprite inc8 dec8
  simp only []
  refine ⟨?_, ?_, ?_, ?_, ?_⟩
  all_goals split_ifs <;> first | omega | (intro hd; exact hd.elim)

theorem sweepInv_run (cfg : Config) (inp : Nat → Nat → Nat) (s0 : State) :
    ∀ n, sweepInv (runFrames cfg inp n (Init cfg s0)) := by
  intro n
  induction n with
  | zero => exact sweepInv_Init cfg s0
  | succ n ih =>
    have hi : sweepInv { runFrames cfg inp n (Init cfg s0) with mem := inp n } := ih
    exact sweepInv_Update cfg _ hi

theorem SetSprite_reflects (cfg : Config) (t : State) : spriteReflects (SetSprite cfg t) := by
  unfold spriteReflects SetSprite writeSprite
  simp

theorem SetSprite_untouched (cfg : Config) (t : State) :
    (SetSprite cfg t).mem = t.mem ∧ ∀ i, i ≠ 0 → (SetSprite cfg t).sprite i = t.sprite i := by
  refine ⟨rfl, ?_⟩
  intro i h0
  unfold SetSprite writeSprite
  simp [h0]

/-- C11: the frame counter of the embedded demo is incremented without a guard: every
`Update` sets `spr_frame` to `(spr_frame + 1) mod 256`, whatever `spr_pos_x` and
`spr_dir` are, so `n` calls after `Init` leave `spr_frame = n mod 256`, which is 0 again
after 256 calls. -/
theorem C11_frame_counter_wraps :
    (∀ (cfg : Config) (s : State), (Update cfg s).spr_frame = (s.spr_frame + 1) % 256) ∧
    (∀ (cfg : Config) (s t : State), s.spr_frame = t.spr_frame →
      (Update cfg s).spr_frame = (Update cfg t).spr_frame) ∧
    (∀ (cfg : Config) (s0 : State) (inp : Nat → Nat → Nat) (n : Nat),
      (runFrames cfg inp n (Init cfg s0)).spr_frame = n % 256) ∧
    (∀ (cfg : Config) (s0 : State) (inp : Nat → Nat → Nat),
      (runFrames cfg inp 255 (Init cfg s0)).spr_frame = 0xFF ∧
      (runFrames cfg inp 256 (Init cfg s0)).spr_frame = 0) := by
  refine ⟨Update_spr_frame, ?_, ?_, ?_⟩
  · intro cfg s t h
    rw [Update_spr_frame, Update_spr_frame, h]
  · intro cfg s0 inp n
    exact run_spr_frame cfg inp s0 n
  · intro cfg s0 inp
    exact ⟨run_spr_frame cfg inp s0 255, run_spr_frame cfg inp s0 256⟩

/-- C18: every state of the embedded demo reached from `Init` by any number of `Update`
calls has `0x10 ≤ spr_pos_x ≤ 0xDC` and `spr_dir` equal to 0 or 1, the next `Update`
moves the sprite by exactly one over the integers (no wrap around 0/255), and after
every `Update`, from any state, `sprite[0]` has `x = spr_pos_x`, `y = 0x50`,
`flags = 0x10` and `reserved = 0`. -/
theorem C18_embedded_sweep_invariant (cfg : Config) (s0 : State) (inp : Nat → Nat → Nat)
    (n : Nat) :
    (0x10 ≤ (runFrames cfg inp n (Init cfg s0)).spr_pos_x ∧
      (runFrames cfg inp n (Init cfg s0)).spr_pos_x ≤ 0xDC ∧
      ((runFrames cfg inp n (Init cfg s0)).spr_dir = 0 ∨
        (runFrames cfg inp n (Init cfg s0)).spr_dir = 1)) ∧
    (runFrames cfg inp (n + 1) (Init cfg s0)).spr_pos_x =
      (if (runFrames cfg inp n (Init cfg s0)).spr_dir = 0
        then (runFrames cfg inp n (Init cfg s0)).spr_pos_x + 1
        else (runFrames cfg inp n (Init cfg s0)).spr_pos_x - 1) ∧
    spriteReflects (runFrames cfg inp (n + 1) (Init cfg s0)) ∧
    (∀ s : State, spriteReflects (Update cfg s)) := by
  obtain ⟨h1, h2, h3, h4, h5⟩ := sweepInv_run cfg inp s0 n
  have e : runFrames cfg inp (n + 1) (Init cfg s0) =
      Update cfg { runFrames cfg inp n (Init cfg s0) with mem := inp n } := rfl
  refine ⟨⟨h1, h2, h3⟩, ?_, ?_, ?_⟩
  · rw [e, Update_eq]
    show (if (runFrames cfg inp n (Init cfg s0)).spr_dir = 0
        then inc8 (runFrames cfg inp n (Init cfg s0)).spr_pos_x
        else dec8 (runFrames cfg inp n (Init cfg s0)).spr_pos_x) = _
    unfold inc8 dec8
    split_ifs <;> omega
  · rw [e, Update_eq]
    exact SetSprite_reflects cfg _
  · intro s
    rw [Update_eq]
    exact SetSprite_reflects cfg _

end Embedded

/-- C13: the scripts never write `mem`: `Init` and `Update` of the chase game and of
the embedded demo return every byte of `mem` as they found it (the four input registers
in particular), and in the sprite table the chase game changes at most descriptors 0
and 1, the embedded demo at most descriptor 0. -/
theorem C13_scripts_do_not_write_mem (cfg : Config) (s : Chase.State) (e : Embedded.State) :
    ((Chase.Init cfg s).mem = s.mem ∧ (Chase.Update cfg s).mem = s.mem ∧
      (Embedded.Init cfg e).mem = e.mem ∧ (Embedded.Update cfg e).mem = e.mem) ∧
    ((Chase.Update cfg s).mem cfg.IO_LEFT = s.mem cfg.IO_LEFT ∧
      (Chase.Update cfg s).mem cfg.IO_RIGHT = s.mem cfg.IO_RIGHT ∧
      (Chase.Update cfg s).mem cfg.IO_UP = s.mem cfg.IO_UP ∧
      (Chase.Update cfg s).mem cfg.IO_DOWN = s.mem cfg.IO_DOWN) ∧
    (∀ i, i ≠ 0 → i ≠ 1 →
      (Chase.Init cfg s).sprite i = s.sprite i ∧ (Chase.Update cfg s).sprite i = s.sprite i) ∧
    (∀ i, i ≠ 0 →
      (Embedded.Init cfg e).sprite i = e.sprite i ∧
      (Embedded.Update cfg e).sprite i = e.sprite i) := by
  obtain ⟨cm, cs⟩ := Chase.Update_untouched cfg s
  have em : (Embedded.Update cfg e).mem = e.mem := by
    rw [Embedded.Update_eq]
    rfl
  refine ⟨⟨rfl, cm, rfl, em⟩, ⟨by rw [cm], by rw [cm], by rw [cm], by rw [cm]⟩, ?_, ?_⟩
  · intro i h0 h1
    exact ⟨(Chase.SetSprites_untouched cfg _).2 i h0 h1, cs i h0 h1⟩
  · intro i h0
    refine ⟨(Embedded.SetSprite_untouched cfg _).2 i h0, ?_⟩
    rw [Embedded.Update_eq]
    exact (Embedded.SetSprite_untouched cfg _).2 i h0

namespace Metal

/-- C14: each of the eight uniform records of Metal.h has, in declaration order, exactly
the fields and kinds of its row in the schema table of the specification; and laid out
in declaration order with natural alignment, every 2-float field of every record is at a
multiple of 8, every 4-float field at a multiple of 16, and no two fields overlap.  The
offsets of the records with padding are listed. -/
theorem C14_uniform_records_match_and_align :
    (RectUniform = specRectUniform ∧ VertexUniform = specVertexUniform ∧
      TextureUniform = specTextureUniform ∧ DiscUniform = specDiscUniform ∧
      BoxUniform = specBoxUniform ∧ LineUniform = specLineUniform ∧
      GridUniform = specGridUniform ∧ TextUniform = specTextUniform) ∧
    (∀ r ∈ uniformRecords, vectorsAligned r ∧ noOverlap r) ∧
    (offsets DiscUniform = [0, 16, 32, 36, 40, 44, 48, 56] ∧
      offsets BoxUniform = [0, 8, 16, 24, 28, 32, 48, 64, 68, 72, 80] ∧
      offsets LineUniform = [0, 8, 16, 24, 28, 32, 48] ∧
      offsets GridUniform = [0, 8, 16, 32, 48] ∧
      offsets TextUniform = [0, 8, 16, 32, 48]) := by
  refine ⟨⟨rfl, rfl, rfl, rfl, rfl, rfl, rfl, rfl⟩, ?_, ?_⟩
  · decide
  · decide

end Metal

end ChipCade
